import Mathlib

/-!
Shallow embedding of `go-sys-monitor` (src/main.go) in Lean 4.

Modelling conventions:
* Go `uint64` values are `Nat` (the source only divides and prints them, so
  no wrap-around can occur); Go `int` is `Int`.
* Go `float64` fields (`Mhz`, `percentUsage`, progress fractions) are `ℚ`;
  every claim checked here evaluates those fields only at points where IEEE
  double arithmetic is exact, so the rational model is faithful there.
* The external gopsutil provider is a record of query results (`Except` for
  the Go `(value, error)` contract); the external bubbles/lipgloss widgets
  are records of pure rendering functions (`RenderEnv`), since their `View`
  methods are deterministic functions of the widget state.
* A Go function that can panic (index out of range) returns `Option`:
  `none` is the panic.  A `log.Fatal` path is an explicit `fatal` outcome.
-/

abbrev Err := String

/-- One entry of the list returned by gopsutil `cpu.Info()`. -/
structure InfoStat where
  modelName : String
  mhz : ℚ

/-- Result of gopsutil `mem.VirtualMemory()`. -/
structure VMStat where
  used : Nat
  total : Nat

/-- One entry of gopsutil `disk.Partitions(false)`. -/
structure PartitionStat where
  device : String
  mountpoint : String
  fstype : String

/-- Result of gopsutil `disk.Usage(path)`. -/
structure UsageStat where
  free : Nat
  used : Nat
  total : Nat

/-- The external metrics provider: one field per gopsutil call made by
`main.go`, each an `Except` mirroring Go's `(value, error)` return. -/
structure Provider where
  cpuInfo : Except Err (List InfoStat)
  cpuCountsTrue : Except Err Int
  cpuCountsFalse : Except Err Int
  cpuPercent : Except Err (List ℚ)
  virtualMemory : Except Err VMStat
  diskPartitions : Except Err (List PartitionStat)
  diskUsage : String → Except Err UsageStat

/-- `CPUMetrics` (main.go:41-47). -/
structure CPUMetrics where
  modelName : String
  frequency : ℚ
  totalCPU : Int
  logicalCPU : Int
  percentUsage : List ℚ
deriving Repr, DecidableEq

/-- `MemoryMetrics` (main.go:49-52). -/
structure MemoryMetrics where
  memoryUsed : Nat
  memoryTotal : Nat

/-- `MountedPartitionMetrics` (main.go:58-65). -/
structure MountedPartitionMetrics where
  devName : String
  mountPoint : String
  fsType : String
  freeDisk : Nat
  usedDisk : Nat
  totalDisk : Nat
deriving DecidableEq

/-- `DiskMetrics` (main.go:54-56). -/
structure DiskMetrics where
  mountedPartitions : List MountedPartitionMetrics
deriving DecidableEq

/-- `SystemMetrics` (main.go:35-39). -/
structure SystemMetrics where
  cpu : CPUMetrics
  memory : MemoryMetrics
  disk : DiskMetrics

/-- `GetCPUMetrics` (main.go:82-104).  The source checks each call's error
and then reads `stat[0]` unguarded; an empty successful `cpu.Info` list is a
Go index-out-of-range panic, modelled as `none`.  An error return carries the
Go zero value `CPUMetrics{}`. -/
def GetCPUMetrics (p : Provider) : Option (CPUMetrics × Option Err) :=
  match p.cpuInfo with
  | .error e => some (⟨"", 0, 0, 0, []⟩, some e)
  | .ok stat =>
    match p.cpuCountsTrue with
    | .error e => some (⟨"", 0, 0, 0, []⟩, some e)
    | .ok total =>
      match p.cpuCountsFalse with
      | .error e => some (⟨"", 0, 0, 0, []⟩, some e)
      | .ok logical =>
        match p.cpuPercent with
        | .error e => some (⟨"", 0, 0, 0, []⟩, some e)
        | .ok v =>
          match stat with
          | [] => none
          | s :: _ =>
            some (⟨s.modelName, s.mhz, total, logical, v⟩, none)

/-- `GetMemMetrics` (main.go:106-112). -/
def GetMemMetrics (p : Provider) : MemoryMetrics × Option Err :=
  match p.virtualMemory with
  | .error e => (⟨0, 0⟩, some e)
  | .ok v => (⟨v.used, v.total⟩, none)

/-- The partition loop of `GetDiskMetrics` (main.go:122-128): a failed
`disk.Usage` call `continue`s, a successful one appends its metrics. -/
def collectPartitions (usage : String → Except Err UsageStat) :
    List PartitionStat → List MountedPartitionMetrics
  | [] => []
  | part :: rest =>
    match usage part.mountpoint with
    | .error _ => collectPartitions usage rest
    | .ok stat =>
      ⟨part.device, part.mountpoint, part.fstype,
        stat.free, stat.used, stat.total⟩ :: collectPartitions usage rest

/-- `GetDiskMetrics` (main.go:114-131).  A failed enumeration returns the
zero value `DiskMetrics{}` with the error; otherwise the per-partition loop
runs. -/
def GetDiskMetrics (p : Provider) : DiskMetrics × Option Err :=
  match p.diskPartitions with
  | .error e => (⟨[]⟩, some e)
  | .ok parts => (⟨collectPartitions p.diskUsage parts⟩, none)

/-- `convertSize` (main.go:154-167). -/
def convertSize (size : Nat) : String :=
  let conv := size / (1024 * 1024)
  if conv ≥ 1024 then
    toString (conv / 1024) ++ "G"
  else
    toString conv ++ "M"

/-- The `TITLE` raw-string constant (main.go:68-76), including its leading
newline, trailing blank line and tab. -/
def TITLE : String :=
  "\n"
  ++ "                      _                                        (_)   _                 " ++ "\n"
  ++ "  ___  _   _   ___  _| |_  _____  ____     ____    ___   ____   _  _| |_   ___    ____ " ++ "\n"
  ++ " /___)| | | | /___)(_   _)| ___ ||    \\   |    \\  / _ \\ |  _ \\ | |(_   _) / _ \\  / ___)" ++ "\n"
  ++ "|___ || |_| ||___ |  | |_ | ____|| | | |  | | | || |_| || | | || |  | |_ | |_| || |    " ++ "\n"
  ++ "(___/  \\__  |(___/    \\__)|_____)|_|_|_|  |_|_|_| \\___/ |_| |_||_|   \\__) \\___/ |_|    " ++ "\n"
  ++ "      (____/                                                                           " ++ "\n"
  ++ "\n\t"

def CPU_TITLE : String := "CPU Metrics"

def MEM_TITLE : String := "Memory Metrics"

def DISK_TITLE : String := "Disk metrics"

/-- State of one bubbles progress widget, abstracted by its pure `ViewAs`
rendering function (the widget is external library code). -/
structure ProgressWidget where
  viewAs : ℚ → String

structure TableColumn where
  title : String
  width : Nat
deriving DecidableEq

abbrev TableRow := List String

/-- State of the bubbles table widget: the data `main.go` stores in it.
Rendering is abstracted into `RenderEnv`. -/
structure DiskTable where
  columns : List TableColumn
  rows : List TableRow
  height : Nat

/-- The external rendering collaborators (lipgloss styles, bubbles widget
renderers, Go float formatting), each a pure function. -/
structure RenderEnv where
  styleTitle : String → String
  styleBold : String → String
  styleBase : String → String
  fmtFloat2 : ℚ → String
  progressViewAs : ℚ → String
  tableRender : List TableColumn → List TableRow → Nat → String

/-- `NewProgress` (main.go:139-141): a fresh widget in its default visual
state; its rendering function is the library's. -/
def NewProgress (env : RenderEnv) : ProgressWidget :=
  ⟨env.progressViewAs⟩

/-- `model` (main.go:28-33). -/
structure Model where
  sys : SystemMetrics
  cpuProgress : List ProgressWidget
  memProgress : ProgressWidget
  diskTable : DiskTable

/-- `getDiskTableColumns` (main.go:143-152). -/
def getDiskTableColumns : List TableColumn :=
  [⟨"Device", 20⟩, ⟨"Mount", 40⟩, ⟨"FS", 10⟩,
   ⟨"Used", 10⟩, ⟨"Total", 10⟩, ⟨"Free", 10⟩]

/-- `getDiskTableRows` (main.go:169-179). -/
def getDiskTableRows (diskMetrics : DiskMetrics) : List TableRow :=
  diskMetrics.mountedPartitions.map fun dk =>
    [dk.devName, dk.mountPoint, dk.fsType,
     convertSize dk.usedDisk, convertSize dk.totalDisk, convertSize dk.freeDisk]

/-- `initialModel` (main.go:181-220): `log.Fatal` paths are `.error`, the
`stat[0]` panic inside `GetCPUMetrics` is `none`. -/
def initialModel (env : RenderEnv) (p : Provider) : Option (Except Err Model) :=
  match GetCPUMetrics p with
  | none => none
  | some (_, some e) =>
    some (.error ("There was some error getting CPU metrics: " ++ e))
  | some (initCpu, none) =>
    match GetMemMetrics p with
    | (_, some e) =>
      some (.error ("There was some error getting memory metrics: " ++ e))
    | (initMem, none) =>
      match GetDiskMetrics p with
      | (_, some e) =>
        some (.error ("There was some error getting disk metrics: " ++ e))
      | (initDisk, none) =>
        some (.ok
          { sys := ⟨initCpu, initMem, initDisk⟩
            cpuProgress :=
              List.replicate initCpu.percentUsage.length (NewProgress env)
            memProgress := NewProgress env
            diskTable :=
              ⟨getDiskTableColumns, getDiskTableRows initDisk,
                initDisk.mountedPartitions.length + 1⟩ })

/-- The two bubbletea message kinds `main.go` handles: `tea.KeyMsg`
(carrying `msg.String()`) and `tickMsg`. -/
inductive Msg
  | key (s : String)
  | tick

/-- The commands `main.go` returns to the bubbletea runtime: `tea.Quit`
and `doTick()`. -/
inductive TeaCmd
  | quit
  | tick
deriving DecidableEq

/-- Outcome of running a piece of Go code that may panic or `log.Fatal`. -/
inductive GoOutcome (α : Type)
  | panicked
  | fatal (msg : Err)
  | ok (a : α)

/-- `model.Update` (main.go:226-267). -/
def update (p : Provider) (m : Model) (msg : Msg) :
    GoOutcome (Model × Option TeaCmd) :=
  match msg with
  | .key s =>
    if s = "ctrl+c" ∨ s = "q" then .ok (m, some .quit)
    else .ok (m, none)
  | .tick =>
    match GetCPUMetrics p with
    | none => .panicked
    | some (_, some e) =>
      .fatal ("There was some error getting CPU metrics: " ++ e)
    | some (cpuv, none) =>
      match GetMemMetrics p with
      | (_, some e) =>
        .fatal ("There was some error getting memory metrics: " ++ e)
      | (memv, none) =>
        match GetDiskMetrics p with
        | (_, some e) =>
          .fatal ("There was some error getting disk metrics: " ++ e)
        | (dskv, none) =>
          .ok ({ m with
            diskTable := { m.diskTable with
              rows := getDiskTableRows dskv
              height := dskv.mountedPartitions.length + 1 }
            sys := ⟨cpuv, memv, dskv⟩ }, some .tick)

/-- Go `strings.Repeat` (count `n` copies of `s`). -/
def stringRepeat (s : String) (n : Nat) : String :=
  String.join (List.replicate n s)

/-- The fraction `float64(memoryUsed) / float64(memoryTotal)` fed to the
memory progress widget (main.go:287). -/
def memFraction (m : Model) : ℚ :=
  (m.sys.memory.memoryUsed : ℚ) / (m.sys.memory.memoryTotal : ℚ)

/-- One iteration of the per-core loop (main.go:280): the line written for
core index `i` (0-based) with raw percent `per`. -/
def cpuLine (w : ProgressWidget) (i : Nat) (per : ℚ) : String :=
  "\nCPU " ++ toString (i + 1) ++ ": " ++ w.viewAs (per / 100)

/-- The per-core loop (main.go:279-281): iterates over `percentUsage`,
indexing `cpuProgress[i]`; `none` is the index-out-of-range panic. -/
def cpuLines (widgets : List ProgressWidget) :
    Nat → List ℚ → Option (List String)
  | _, [] => some []
  | i, per :: rest =>
    match widgets[i]? with
    | none => none
    | some w => (cpuLines widgets (i + 1) rest).map fun ls => cpuLine w i per :: ls

/-- `model.View` (main.go:269-295). -/
def view (env : RenderEnv) (m : Model) : Option String :=
  match cpuLines m.cpuProgress 0 m.sys.cpu.percentUsage with
  | none => none
  | some ls =>
    some (env.styleTitle TITLE ++ "\n\n"
      ++ env.styleBold CPU_TITLE ++ "\n"
      ++ env.styleBold (stringRepeat "#" CPU_TITLE.length) ++ "\n"
      ++ "Model Name: " ++ m.sys.cpu.modelName ++ "\n"
      ++ "Frequency: " ++ env.fmtFloat2 m.sys.cpu.frequency ++ "MHz\n"
      ++ "Total CPU: " ++ toString m.sys.cpu.totalCPU
      ++ " (" ++ toString m.sys.cpu.logicalCPU ++ " Logical)\n"
      ++ String.join ls
      ++ "\n\n"
      ++ env.styleBold MEM_TITLE ++ "\n"
      ++ env.styleBold (stringRepeat "#" MEM_TITLE.length) ++ "\n"
      ++ "Used " ++ toString m.sys.memory.memoryUsed
      ++ " bytes (of " ++ toString m.sys.memory.memoryTotal ++ " bytes)\n\n"
      ++ m.memProgress.viewAs (memFraction m)
      ++ "\n\n"
      ++ env.styleBold DISK_TITLE ++ "\n"
      ++ env.styleBold (stringRepeat "#" DISK_TITLE.length) ++ "\n"
      ++ env.styleBase
          (env.tableRender m.diskTable.columns m.diskTable.rows m.diskTable.height))

/-- Event-loop state of the bubbletea runtime: it stops exactly when a
handler returns the `tea.Quit` command. -/
inductive LoopState
  | running
  | terminated
deriving DecidableEq

/-- One dispatch of the event loop: runs `update` and terminates the loop
iff the returned command is `tea.Quit`. -/
def loopStep (p : Provider) (m : Model) (msg : Msg) :
    GoOutcome (LoopState × Model × Option TeaCmd) :=
  match update p m msg with
  | .panicked => .panicked
  | .fatal e => .fatal e
  | .ok (m2, some .quit) => .ok (.terminated, m2, some .quit)
  | .ok (m2, c) => .ok (.running, m2, c)

/-- The model after a successful tick refresh, if the tick neither
panicked nor hit `log.Fatal`. -/
def afterTick (p : Provider) (m : Model) : Option Model :=
  match update p m .tick with
  | .ok (m2, _) => some m2
  | _ => none

/-- The first frame the program renders: `main` (main.go:297-303) builds
`initialModel()` before the bubbletea runtime ever calls `View`, so no
frame exists unless startup completed. -/
def firstFrame (env : RenderEnv) (p : Provider) : Option (Option String) :=
  match initialModel env p with
  | some (.ok m) => some (view env m)
  | _ => none

/-- The snapshot-assembly step shared by `initialModel` and the tick branch
of `model.Update`: query CPU, then memory, then disk; fail on the first
error; the `stat[0]` panic is `none`. -/
def assemble (p : Provider) : Option (Except Err SystemMetrics) :=
  match GetCPUMetrics p with
  | none => none
  | some (_, some e) => some (.error e)
  | some (c, none) =>
    match GetMemMetrics p with
    | (_, some e) => some (.error e)
    | (memv, none) =>
      match GetDiskMetrics p with
      | (_, some e) => some (.error e)
      | (dskv, none) => some (.ok ⟨c, memv, dskv⟩)

/-! ### Concrete fixtures used by witnesses and counterexamples -/

/-- A concrete rendering environment (identity styles, constant widget
renderers) for evaluating witnesses. -/
def wEnv : RenderEnv :=
  ⟨id, id, id, fun _ => "", fun _ => "", fun _ _ _ => ""⟩

/-- A concrete progress widget. -/
def wWidget : ProgressWidget :=
  ⟨fun _ => ""⟩

/-- A provider whose queries all succeed (with an empty core-percent list
and no partitions). -/
def pW : Provider :=
  ⟨.ok [⟨"cpu0", 0⟩], .ok 0, .ok 0, .ok [], .ok ⟨0, 0⟩, .ok [],
    fun _ => .error "x"⟩

/-- A concrete dashboard model with one per-core widget. -/
def mW : Model :=
  { sys := ⟨⟨"cpu0", 0, 0, 0, [0]⟩, ⟨0, 0⟩, ⟨[]⟩⟩
    cpuProgress := [wWidget]
    memProgress := wWidget
    diskTable := ⟨getDiskTableColumns, [], 1⟩ }

/-- Partition A, whose usage query succeeds. -/
def partA : PartitionStat := ⟨"/dev/a", "/mnt/a", "ext4"⟩

/-- Partition B, whose usage query fails. -/
def partB : PartitionStat := ⟨"/dev/b", "/mnt/b", "ext4"⟩

/-- Partition C, whose usage query succeeds. -/
def partC : PartitionStat := ⟨"/dev/c", "/mnt/c", "ext4"⟩

/-- A provider enumerating partitions `[A, B, C]` where only the usage
query for B fails. -/
def pABC : Provider :=
  ⟨.ok [⟨"cpu0", 0⟩], .ok 0, .ok 0, .ok [], .ok ⟨0, 0⟩,
    .ok [partA, partB, partC],
    fun mp =>
      if mp = "/mnt/a" then .ok ⟨1, 2, 3⟩
      else if mp = "/mnt/c" then .ok ⟨4, 5, 6⟩
      else .error "usage failed"⟩

/-! ### Helper lemmas -/

theorem collectPartitions_eq_filterMap (usage : String → Except Err UsageStat)
    (l : List PartitionStat) :
    collectPartitions usage l = l.filterMap fun part =>
      match usage part.mountpoint with
      | .error _ => none
      | .ok stat =>
        some ⟨part.device, part.mountpoint, part.fstype,
          stat.free, stat.used, stat.total⟩ := by
  induction l with
  | nil => rfl
  | cons a t ih =>
    cases h : usage a.mountpoint <;>
      simp [collectPartitions, List.filterMap_cons, h, ih]

/-! ### C2: the size formatter -/

/-- C2: for every uint64 byte count `s`, `convertSize` returns
`toString (s / 2^20) ++ "M"` when that quotient is below 1024 and otherwise
`toString (s / 2^20 / 1024) ++ "G"`; in particular it maps 500 MiB to
"500M", 2 GiB to "2G", 1023 MiB to "1023M" and 1024 MiB to "1G". -/
theorem convertSize_spec :
    (∀ s : Nat, s < 2 ^ 64 →
      convertSize s =
        if s / (1024 * 1024) < 1024 then toString (s / (1024 * 1024)) ++ "M"
        else toString (s / (1024 * 1024) / 1024) ++ "G")
    ∧ convertSize (500 * 1024 * 1024) = "500M"
    ∧ convertSize (2 * 1024 * 1024 * 1024) = "2G"
    ∧ convertSize (1023 * 1024 * 1024) = "1023M"
    ∧ convertSize (1024 * 1024 * 1024) = "1G" := by
  refine ⟨fun s _ => ?_, by decide, by decide, by decide, by decide⟩
  show (if s / (1024 * 1024) ≥ 1024 then toString (s / (1024 * 1024) / 1024) ++ "G"
    else toString (s / (1024 * 1024)) ++ "M") = _
  generalize s / (1024 * 1024) = q
  by_cases h : q < 1024
  · rw [if_neg (Nat.not_le.mpr h), if_pos h]
  · rw [if_pos (Nat.not_lt.mp h), if_neg h]

/-- Witness for C2 at the concrete input 500 MiB. -/
theorem convertSize_spec_witness :
    500 * 1024 * 1024 < 2 ^ 64 ∧ convertSize (500 * 1024 * 1024) = "500M" :=
  ⟨by norm_num,
    (convertSize_spec.1 (500 * 1024 * 1024) (by norm_num)).trans (by decide)⟩

/-! ### C3: per-partition disk failures are skipped -/

/-- C3: when the enumeration step succeeds, the disk query succeeds and
returns exactly the partitions whose usage query succeeded, in enumeration
order; failed ones are silently dropped. -/
theorem getDiskMetrics_partial_failure (p : Provider) (l : List PartitionStat)
    (h : p.diskPartitions = .ok l) :
    (GetDiskMetrics p).2 = none ∧
    (GetDiskMetrics p).1.mountedPartitions =
      l.filterMap fun part =>
        match p.diskUsage part.mountpoint with
        | .error _ => none
        | .ok stat =>
          some ⟨part.device, part.mountpoint, part.fstype,
            stat.free, stat.used, stat.total⟩ := by
  rw [GetDiskMetrics, h]
  exact ⟨rfl, collectPartitions_eq_filterMap p.diskUsage l⟩

/-- Witness for C3: partitions `[A(ok), B(fails), C(ok)]` yield exactly
`[A, C]` with no overall error. -/
theorem getDiskMetrics_partial_failure_witness :
    (GetDiskMetrics pABC).2 = none ∧
    (GetDiskMetrics pABC).1.mountedPartitions =
      [⟨"/dev/a", "/mnt/a", "ext4", 1, 2, 3⟩,
       ⟨"/dev/c", "/mnt/c", "ext4", 4, 5, 6⟩] := by
  have h := getDiskMetrics_partial_failure pABC [partA, partB, partC] rfl
  exact ⟨h.1, h.2.trans (by decide)⟩

/-! ### C7: quit keys -/

/-- C7: the event loop terminates exactly on the keys "q" and "ctrl+c"
(issuing `tea.Quit` with the model unchanged); every other key leaves the
model unchanged and issues no command. -/
theorem update_quit_keys (p : Provider) (m : Model) (s : String) :
    (loopStep p m (.key s) = .ok (.terminated, m, some .quit)
      ↔ (s = "ctrl+c" ∨ s = "q"))
    ∧ ((s ≠ "ctrl+c" ∧ s ≠ "q") →
        loopStep p m (.key s) = .ok (.running, m, none)) := by
  by_cases h : s = "ctrl+c" ∨ s = "q"
  · constructor
    · simp [loopStep, update, h]
    · intro hn
      exact absurd h (by tauto)
  · constructor
    · rw [loopStep, update]
      simp only [if_neg h]
      constructor
      · intro hcontra
        cases hcontra
      · intro hor
        exact absurd hor h
    · intro _
      rw [loopStep, update]
      simp only [if_neg h]

/-- Witness for C7 at the keys "q" (quits) and "x" (inert). -/
theorem update_quit_keys_witness :
    loopStep pW mW (.key "q") = .ok (.terminated, mW, some .quit)
    ∧ loopStep pW mW (.key "x") = .ok (.running, mW, none) :=
  ⟨(update_quit_keys pW mW "q").1.mpr (Or.inr rfl),
   (update_quit_keys pW mW "x").2 ⟨by decide, by decide⟩⟩

/-! ### C8: render is a pure function of the dashboard state -/

/-- C8: `View` takes its receiver by value and writes only a local string
builder, so it is embedded as a pure function; two calls on the same state
with no intervening refresh yield character-for-character identical output,
and the state is not mutated. -/
theorem view_deterministic (env : RenderEnv) (m : Model) (s1 s2 : Option String)
    (h1 : view env m = s1) (h2 : view env m = s2) : s1 = s2 :=
  h1 ▸ h2

/-- Witness for C8 at a concrete state. -/
theorem view_deterministic_witness : view wEnv mW = view wEnv mW :=
  view_deterministic wEnv mW (view wEnv mW) (view wEnv mW) rfl rfl

/-! ### Structure of the per-core render loop -/

theorem cpuLines_spec (widgets : List ProgressWidget) :
    ∀ (ps : List ℚ) (i : Nat), i + ps.length ≤ widgets.length →
      ∃ ls, cpuLines widgets i ps = some ls ∧ ls.length = ps.length ∧
        ∀ j : Nat, ls[j]? =
          (ps[j]?).bind fun per =>
            (widgets[i + j]?).map fun w => cpuLine w (i + j) per := by
  intro ps
  induction ps with
  | nil =>
    intro i _
    exact ⟨[], rfl, rfl, fun j => by simp⟩
  | cons per rest ih =>
    intro i h
    have hi : i < widgets.length := by
      simp only [List.length_cons] at h
      omega
    have hw : widgets[i]? = some widgets[i] := List.getElem?_eq_getElem hi
    obtain ⟨ls, hls, hlen, hidx⟩ := ih (i + 1) (by
      simp only [List.length_cons] at h
      omega)
    refine ⟨cpuLine widgets[i] i per :: ls, ?_, by simp [hlen], fun j => ?_⟩
    · simp [cpuLines, hw, hls]
    · cases j with
      | zero => simp [hw]
      | succ j =>
        simp only [List.getElem?_cons_succ]
        rw [show i + (j + 1) = (i + 1) + j by omega]
        exact hidx j

theorem cpuLines_none (widgets : List ProgressWidget) :
    ∀ (ps : List ℚ) (i : Nat), widgets.length < i + ps.length → ps ≠ [] →
      cpuLines widgets i ps = none := by
  intro ps
  induction ps with
  | nil => intro i _ hne; exact absurd rfl hne
  | cons per rest ih =>
    intro i h _
    cases hw : widgets[i]? with
    | none => simp [cpuLines, hw]
    | some w =>
      have hi : i < widgets.length := by
        by_contra hcon
        rw [List.getElem?_eq_none (by omega)] at hw
        cases hw
      cases rest with
      | nil =>
        simp only [List.length_cons, List.length_nil] at h
        omega
      | cons p2 r2 =>
        have hnone := ih (i + 1) (by simp at h ⊢; omega) (by simp)
        rw [cpuLines, hw]
        show (cpuLines widgets (i + 1) (p2 :: r2)).map
          (fun ls => cpuLine w i per :: ls) = none
        rw [hnone]
        rfl

theorem view_isSome_iff (env : RenderEnv) (m : Model) :
    (view env m).isSome = true ↔
      m.sys.cpu.percentUsage.length ≤ m.cpuProgress.length := by
  rw [view]
  cases hcl : cpuLines m.cpuProgress 0 m.sys.cpu.percentUsage with
  | none =>
    simp only [Option.isSome_none, Bool.false_eq_true, false_iff]
    intro hle
    obtain ⟨ls, hls, -, -⟩ := cpuLines_spec m.cpuProgress
      m.sys.cpu.percentUsage 0 (by omega)
    rw [hls] at hcl
    cases hcl
  | some ls =>
    simp only [Option.isSome_some, true_iff]
    by_contra hlt
    push_neg at hlt
    have hne : m.sys.cpu.percentUsage ≠ [] := by
      intro he
      rw [he] at hlt
      simp at hlt
    rw [cpuLines_none m.cpuProgress m.sys.cpu.percentUsage 0 (by omega) hne]
      at hcl
    cases hcl

/-! ### C6: one progress line per core, in index order -/

/-- C6: for a state whose widget list is at least as long as
`percentUsage`, the render emits exactly one per-core line per entry, in
index order, each feeding the entry divided by 100 to its widget. -/
theorem view_cpu_section (env : RenderEnv) (m : Model)
    (h : m.sys.cpu.percentUsage.length ≤ m.cpuProgress.length) :
    ∃ ls, cpuLines m.cpuProgress 0 m.sys.cpu.percentUsage = some ls
      ∧ ls.length = m.sys.cpu.percentUsage.length
      ∧ (∀ j : Nat, ls[j]? =
          (m.sys.cpu.percentUsage[j]?).bind fun per =>
            (m.cpuProgress[j]?).map fun w =>
              "\nCPU " ++ toString (j + 1) ++ ": " ++ w.viewAs (per / 100))
      ∧ ∃ a b, view env m = some (a ++ String.join ls ++ b) := by
  obtain ⟨ls, hls, hlen, hidx⟩ := cpuLines_spec m.cpuProgress
    m.sys.cpu.percentUsage 0 (by omega)
  refine ⟨ls, hls, hlen, fun j => by simpa [cpuLine] using hidx j, ?_⟩
  refine ⟨env.styleTitle TITLE ++ "\n\n"
      ++ env.styleBold CPU_TITLE ++ "\n"
      ++ env.styleBold (stringRepeat "#" CPU_TITLE.length) ++ "\n"
      ++ "Model Name: " ++ m.sys.cpu.modelName ++ "\n"
      ++ "Frequency: " ++ env.fmtFloat2 m.sys.cpu.frequency ++ "MHz\n"
      ++ "Total CPU: " ++ toString m.sys.cpu.totalCPU
      ++ " (" ++ toString m.sys.cpu.logicalCPU ++ " Logical)\n",
    "\n\n"
      ++ env.styleBold MEM_TITLE ++ "\n"
      ++ env.styleBold (stringRepeat "#" MEM_TITLE.length) ++ "\n"
      ++ "Used " ++ toString m.sys.memory.memoryUsed
      ++ " bytes (of " ++ toString m.sys.memory.memoryTotal ++ " bytes)\n\n"
      ++ m.memProgress.viewAs (memFraction m)
      ++ "\n\n"
      ++ env.styleBold DISK_TITLE ++ "\n"
      ++ env.styleBold (stringRepeat "#" DISK_TITLE.length) ++ "\n"
      ++ env.styleBase
          (env.tableRender m.diskTable.columns m.diskTable.rows
            m.diskTable.height), ?_⟩
  rw [view, hls]
  simp [String.append_assoc]

/-- A concrete dashboard model with two cores and two widgets. -/
def mW6 : Model :=
  { sys := ⟨⟨"cpu0", 0, 0, 0, [50, 75]⟩, ⟨0, 0⟩, ⟨[]⟩⟩
    cpuProgress := [wWidget, wWidget]
    memProgress := wWidget
    diskTable := ⟨getDiskTableColumns, [], 1⟩ }

/-- Witness for C6 at a two-core state. -/
theorem view_cpu_section_witness :
    (cpuLines mW6.cpuProgress 0 mW6.sys.cpu.percentUsage).map List.length
      = some 2
    ∧ (view wEnv mW6).isSome = true := by
  obtain ⟨ls, hls, hlen, -, a, b, hv⟩ := view_cpu_section wEnv mW6 (by decide)
  constructor
  · rw [hls, Option.map_some', hlen]
    rfl
  · rw [hv]
    rfl

/-! ### C9: the memory fraction scenario -/

/-- C9: with `usedBytes = 4294967296` and `totalBytes = 8589934592`, render
feeds the memory progress widget exactly the fraction 1/2 (these byte
counts are powers of two, so the IEEE double division in the source is
exact) and emits the used/total line with the raw byte integers. -/
theorem view_memory_half (env : RenderEnv) (m : Model)
    (hu : m.sys.memory.memoryUsed = 4294967296)
    (ht : m.sys.memory.memoryTotal = 8589934592)
    (hl : m.sys.cpu.percentUsage.length ≤ m.cpuProgress.length) :
    memFraction m = 1 / 2 ∧
    ∃ a b, view env m =
      some (a ++ "Used 4294967296 bytes (of 8589934592 bytes)\n\n"
        ++ m.memProgress.viewAs (1 / 2) ++ b) := by
  have hfrac : memFraction m = 1 / 2 := by
    rw [memFraction, hu, ht]
    norm_num
  refine ⟨hfrac, ?_⟩
  obtain ⟨ls, hls, -, -⟩ := cpuLines_spec m.cpuProgress
    m.sys.cpu.percentUsage 0 (by omega)
  have hline : ("Used 4294967296 bytes (of 8589934592 bytes)\n\n" : String)
      = "Used " ++ toString (4294967296 : Nat)
        ++ " bytes (of " ++ toString (8589934592 : Nat) ++ " bytes)\n\n" := by
    decide
  refine ⟨env.styleTitle TITLE ++ "\n\n"
      ++ env.styleBold CPU_TITLE ++ "\n"
      ++ env.styleBold (stringRepeat "#" CPU_TITLE.length) ++ "\n"
      ++ "Model Name: " ++ m.sys.cpu.modelName ++ "\n"
      ++ "Frequency: " ++ env.fmtFloat2 m.sys.cpu.frequency ++ "MHz\n"
      ++ "Total CPU: " ++ toString m.sys.cpu.totalCPU
      ++ " (" ++ toString m.sys.cpu.logicalCPU ++ " Logical)\n"
      ++ String.join ls
      ++ "\n\n"
      ++ env.styleBold MEM_TITLE ++ "\n"
      ++ env.styleBold (stringRepeat "#" MEM_TITLE.length) ++ "\n",
    "\n\n"
      ++ env.styleBold DISK_TITLE ++ "\n"
      ++ env.styleBold (stringRepeat "#" DISK_TITLE.length) ++ "\n"
      ++ env.styleBase
          (env.tableRender m.diskTable.columns m.diskTable.rows
            m.diskTable.height), ?_⟩
  rw [view, hls, hline]
  simp only [hu, ht, hfrac, String.append_assoc]

/-- A concrete state for the C9 scenario. -/
def m9 : Model :=
  { sys := ⟨⟨"cpu0", 0, 0, 0, []⟩, ⟨4294967296, 8589934592⟩, ⟨[]⟩⟩
    cpuProgress := []
    memProgress := wWidget
    diskTable := ⟨getDiskTableColumns, [], 1⟩ }

/-- Witness for C9 at the concrete state `m9`. -/
theorem view_memory_half_witness :
    memFraction m9 = 1 / 2 ∧ (view wEnv m9).isSome = true := by
  obtain ⟨hfrac, a, b, hv⟩ := view_memory_half wEnv m9 rfl rfl (by decide)
  exact ⟨hfrac, by rw [hv]; rfl⟩

/-! ### C1: widget-list reconciliation on core-count change -/

/-- A provider delivering a two-core snapshot. -/
def pC1 : Provider :=
  ⟨.ok [⟨"cpu0", 0⟩], .ok 0, .ok 0, .ok [0, 0], .ok ⟨0, 0⟩, .ok [],
    fun _ => .error "x"⟩

/-- C1 counterexample: a tick delivering a snapshot with 2 cores to a state
holding 1 widget leaves the widget list at length 1, not 2 — `model.Update`
never rebuilds `cpuProgress`. -/
theorem update_tick_no_reconciliation :
    ¬ ∀ (p : Provider) (m m2 : Model) (c : Option TeaCmd),
        update p m .tick = .ok (m2, c) →
        m2.cpuProgress.length = m2.sys.cpu.percentUsage.length := by
  intro hall
  have h := hall pC1 mW _ _ rfl
  exact absurd h (by decide)

/-- C1 amended: a refresh tick never rebuilds the per-core widget list —
it keeps its previous value (hence length `N`); the transition frame then
renders without out-of-range access iff the new core count `M` satisfies
`M ≤ N` (for `M > N` the render indexes past the widget list and panics). -/
theorem update_tick_preserves_widgets (env : RenderEnv) (p : Provider)
    (m m2 : Model) (c : Option TeaCmd)
    (h : update p m .tick = .ok (m2, c)) :
    m2.cpuProgress = m.cpuProgress ∧
    ((view env m2).isSome = true ↔
      m2.sys.cpu.percentUsage.length ≤ m.cpuProgress.length) := by
  have hpres : m2.cpuProgress = m.cpuProgress := by
    rcases hc : GetCPUMetrics p with _ | ⟨cv, _ | e⟩
    · simp only [update, hc] at h
      exact GoOutcome.noConfusion h
    · rcases hm : GetMemMetrics p with ⟨mv, _ | e⟩
      · rcases hd : GetDiskMetrics p with ⟨dv, _ | e⟩
        · simp only [update, hc, hm, hd] at h
          injection h with h1
          injection h1 with h1a h1b
          rw [← h1a]
        · simp only [update, hc, hm, hd] at h
          exact GoOutcome.noConfusion h
      · simp only [update, hc, hm] at h
        exact GoOutcome.noConfusion h
    · simp only [update, hc] at h
      exact GoOutcome.noConfusion h
  refine ⟨hpres, ?_⟩
  rw [← hpres]
  exact view_isSome_iff env m2

/-- The model produced by a successful tick of `pW` from `mW`. -/
def mWafter : Model :=
  { sys := ⟨⟨"cpu0", 0, 0, 0, []⟩, ⟨0, 0⟩, ⟨[]⟩⟩
    cpuProgress := [wWidget]
    memProgress := wWidget
    diskTable := ⟨getDiskTableColumns, [], 1⟩ }

/-- Witness for the amended C1 at a concrete successful tick. -/
theorem update_tick_preserves_widgets_witness :
    mWafter.cpuProgress = mW.cpuProgress ∧
    ((view wEnv mWafter).isSome = true ↔
      mWafter.sys.cpu.percentUsage.length ≤ mW.cpuProgress.length) :=
  update_tick_preserves_widgets wEnv pW mW mWafter (some .tick) rfl

/-! ### C4: assembly fails iff CPU, memory, or disk enumeration fails -/

/-- The CPU query returned an error (without panicking). -/
def cpuQueryFails (p : Provider) : Prop :=
  ∃ c e, GetCPUMetrics p = some (c, some e)

/-- The memory query returned an error. -/
def memQueryFails (p : Provider) : Prop :=
  ∃ e, (GetMemMetrics p).2 = some e

/-- The disk partition-enumeration step returned an error. -/
def diskEnumFails (p : Provider) : Prop :=
  ∃ e, p.diskPartitions = .error e

/-- The per-refresh assembly returned an error. -/
def assembleFails (p : Provider) : Prop :=
  ∃ e, assemble p = some (Except.error e)

/-- C4: provided the CPU query does not panic, the assembly errors iff the
CPU query, the memory query, or the disk enumeration step fails; an erroring
assembly never yields a snapshot, and each failing query returns its Go
zero value, never a partially filled one. -/
theorem assemble_error_iff :
    (∀ p : Provider, GetCPUMetrics p ≠ none →
      (assembleFails p ↔ (cpuQueryFails p ∨ memQueryFails p ∨ diskEnumFails p)))
    ∧ (∀ p : Provider, assembleFails p →
        ∀ s, assemble p ≠ some (Except.ok s))
    ∧ (∀ (p : Provider) (c : CPUMetrics) (e : Err),
        GetCPUMetrics p = some (c, some e) → c = ⟨"", 0, 0, 0, []⟩)
    ∧ (∀ (p : Provider) (e : Err),
        (GetMemMetrics p).2 = some e → (GetMemMetrics p).1 = ⟨0, 0⟩)
    ∧ (∀ (p : Provider) (e : Err),
        (GetDiskMetrics p).2 = some e → (GetDiskMetrics p).1 = ⟨[]⟩) := by
  refine ⟨fun p hp => ?_, fun p hf s hs => ?_, fun p c e h => ?_,
    fun p e h => ?_, fun p e h => ?_⟩
  · rcases hc : GetCPUMetrics p with _ | ⟨cv, _ | e⟩
    · exact absurd hc hp
    · rcases hm : GetMemMetrics p with ⟨mv, _ | e⟩
      · rcases hd : p.diskPartitions with e | l
        · have hdm : GetDiskMetrics p = (⟨[]⟩, some e) := by
            simp [GetDiskMetrics, hd]
          have ha : assemble p = some (.error e) := by
            simp [assemble, hc, hm, hdm]
          exact ⟨fun _ => Or.inr (Or.inr ⟨e, hd⟩), fun _ => ⟨e, ha⟩⟩
        · have hdm : GetDiskMetrics p =
              (⟨collectPartitions p.diskUsage l⟩, none) := by
            simp [GetDiskMetrics, hd]
          have ha : assemble p =
              some (.ok ⟨cv, mv, ⟨collectPartitions p.diskUsage l⟩⟩) := by
            simp [assemble, hc, hm, hdm]
          constructor
          · rintro ⟨e, he⟩
            rw [ha] at he
            exact Except.noConfusion (Option.some.inj he)
          · rintro (⟨c2, e2, hce⟩ | ⟨e2, hme⟩ | ⟨e2, hde⟩)
            · rw [hc] at hce
              exact Option.noConfusion
                (congrArg Prod.snd (Option.some.inj hce))
            · rw [hm] at hme
              exact Option.noConfusion hme
            · rw [hd] at hde
              exact Except.noConfusion hde
      · have ha : assemble p = some (.error e) := by
          simp [assemble, hc, hm]
        exact ⟨fun _ => Or.inr (Or.inl ⟨e, by rw [hm]⟩), fun _ => ⟨e, ha⟩⟩
    · have ha : assemble p = some (.error e) := by
        simp [assemble, hc]
      exact ⟨fun _ => Or.inl ⟨cv, e, hc⟩, fun _ => ⟨e, ha⟩⟩
  · obtain ⟨e, he⟩ := hf
    rw [hs] at he
    exact Except.noConfusion (Option.some.inj he)
  · rw [GetCPUMetrics] at h
    repeat' split at h
    all_goals simp_all
  · rw [GetMemMetrics] at h ⊢
    split at h
    · simp_all [GetMemMetrics]
    · simp_all
  · rw [GetDiskMetrics] at h ⊢
    split at h
    · simp_all [GetDiskMetrics]
    · simp_all

/-- A provider whose memory query fails (all other queries succeed). -/
def pFailMem : Provider :=
  ⟨.ok [⟨"cpu0", 0⟩], .ok 0, .ok 0, .ok [], .error "memErr", .ok [],
    fun _ => .error "x"⟩

/-- Witness for C4: a failing memory query makes the whole assembly fail,
and the memory value returned alongside the error is the zero value. -/
theorem assemble_error_iff_witness :
    assembleFails pFailMem ∧ (GetMemMetrics pFailMem).1 = ⟨0, 0⟩ :=
  ⟨(assemble_error_iff.1 pFailMem (by decide)).mpr
      (Or.inr (Or.inl ⟨"memErr", rfl⟩)),
    assemble_error_iff.2.2.2.1 pFailMem "memErr" rfl⟩

/-- The tick branch of `model.Update` realizes exactly the `assemble`
sequence: it panics, logs fatally, or installs the assembled snapshot while
replacing the table rows and height. -/
theorem update_tick_outcome (p : Provider) (m : Model) :
    (assemble p = none → update p m .tick = .panicked)
    ∧ (∀ e, assemble p = some (.error e) → ∃ msg, update p m .tick = .fatal msg)
    ∧ (∀ s, assemble p = some (.ok s) →
        update p m .tick = .ok ({ m with
          diskTable := { m.diskTable with
            rows := getDiskTableRows s.disk
            height := s.disk.mountedPartitions.length + 1 }
          sys := s }, some .tick)) := by
  rcases hc : GetCPUMetrics p with _ | ⟨cv, _ | e⟩
  · refine ⟨fun _ => by simp [update, hc], fun e he => ?_, fun s hs => ?_⟩
    · rw [assemble, hc] at he
      exact Option.noConfusion he
    · rw [assemble, hc] at hs
      exact Option.noConfusion hs
  · rcases hm : GetMemMetrics p with ⟨mv, _ | e⟩
    · rcases hd : GetDiskMetrics p with ⟨dv, _ | e⟩
      · have ha : assemble p = some (.ok ⟨cv, mv, dv⟩) := by
          simp [assemble, hc, hm, hd]
        refine ⟨fun hn => ?_, fun e he => ?_, fun s hs => ?_⟩
        · rw [ha] at hn
          exact Option.noConfusion hn
        · rw [ha] at he
          exact Except.noConfusion (Option.some.inj he)
        · rw [ha] at hs
          have hsys : (⟨cv, mv, dv⟩ : SystemMetrics) = s :=
            Except.ok.inj (Option.some.inj hs)
          rw [← hsys]
          simp [update, hc, hm, hd]
      · have ha : assemble p = some (.error e) := by
          simp [assemble, hc, hm, hd]
        refine ⟨fun hn => ?_,
          fun e2 he => ⟨"There was some error getting disk metrics: " ++ e,
            by simp [update, hc, hm, hd]⟩,
          fun s hs => ?_⟩
        · rw [ha] at hn
          exact Option.noConfusion hn
        · rw [ha] at hs
          exact Except.noConfusion (Option.some.inj hs)
    · have ha : assemble p = some (.error e) := by
        simp [assemble, hc, hm]
      refine ⟨fun hn => ?_,
        fun e2 he => ⟨"There was some error getting memory metrics: " ++ e,
          by simp [update, hc, hm]⟩,
        fun s hs => ?_⟩
      · rw [ha] at hn
        exact Option.noConfusion hn
      · rw [ha] at hs
        exact Except.noConfusion (Option.some.inj hs)
  · have ha : assemble p = some (.error e) := by
      simp [assemble, hc]
    refine ⟨fun hn => ?_,
      fun e2 he => ⟨"There was some error getting CPU metrics: " ++ e,
        by simp [update, hc]⟩,
      fun s hs => ?_⟩
    · rw [ha] at hn
      exact Option.noConfusion hn
    · rw [ha] at hs
      exact Except.noConfusion (Option.some.inj hs)

/-! ### C5: CPU failure at startup is fatal before any frame -/

/-- C5: if the CPU query fails during the very first assembly, startup
terminates with the logged cause and the program never renders a frame. -/
theorem startup_cpu_failure_fatal (env : RenderEnv) (p : Provider)
    (c : CPUMetrics) (e : Err)
    (h : GetCPUMetrics p = some (c, some e)) :
    initialModel env p =
      some (.error ("There was some error getting CPU metrics: " ++ e))
    ∧ firstFrame env p = none := by
  constructor
  · simp [initialModel, h]
  · simp [firstFrame, initialModel, h]

/-- A provider whose CPU info query fails. -/
def pFailCpu : Provider :=
  ⟨.error "down", .ok 0, .ok 0, .ok [], .ok ⟨0, 0⟩, .ok [],
    fun _ => .error "x"⟩

/-- Witness for C5 at a concretely failing CPU query. -/
theorem startup_cpu_failure_fatal_witness :
    initialModel wEnv pFailCpu =
      some (.error ("There was some error getting CPU metrics: " ++ "down"))
    ∧ firstFrame wEnv pFailCpu = none :=
  startup_cpu_failure_fatal wEnv pFailCpu ⟨"", 0, 0, 0, []⟩ "down" rfl

/-! ### C10: the unguarded read of the CPU info head -/

/-- C10: after only its error check, the CPU query reads element 0 of the
info list: with everything else succeeding it panics exactly when a
successful `cpu.Info` returns the empty list (the empty success is not
turned into an error), and with a non-empty list it succeeds using the
head element. -/
theorem getCPUMetrics_head_unguarded :
    (∀ (p : Provider) (l : List InfoStat), p.cpuInfo = .ok l →
      (GetCPUMetrics p = none ↔
        (l = [] ∧ (∃ t, p.cpuCountsTrue = .ok t)
          ∧ (∃ g, p.cpuCountsFalse = .ok g) ∧ (∃ v, p.cpuPercent = .ok v))))
    ∧ (∀ (p : Provider) (s : InfoStat) (rest : List InfoStat)
        (t g : Int) (v : List ℚ),
        p.cpuInfo = .ok (s :: rest) → p.cpuCountsTrue = .ok t →
        p.cpuCountsFalse = .ok g → p.cpuPercent = .ok v →
        GetCPUMetrics p = some (⟨s.modelName, s.mhz, t, g, v⟩, none)) := by
  constructor
  · intro p l hl
    constructor
    · intro h
      rcases ht : p.cpuCountsTrue with e | t
      · simp [GetCPUMetrics, hl, ht] at h
      rcases hg : p.cpuCountsFalse with e | g
      · simp [GetCPUMetrics, hl, ht, hg] at h
      rcases hv : p.cpuPercent with e | v
      · simp [GetCPUMetrics, hl, ht, hg, hv] at h
      cases l with
      | nil => exact ⟨rfl, ⟨t, rfl⟩, ⟨g, rfl⟩, ⟨v, rfl⟩⟩
      | cons s rest => simp [GetCPUMetrics, hl, ht, hg, hv] at h
    · rintro ⟨rfl, ⟨t, ht⟩, ⟨g, hg⟩, ⟨v, hv⟩⟩
      simp [GetCPUMetrics, hl, ht, hg, hv]
  · intro p s rest t g v h1 h2 h3 h4
    simp [GetCPUMetrics, h1, h2, h3, h4]

/-- A provider whose `cpu.Info` succeeds with an empty list. -/
def pEmptyInfo : Provider :=
  ⟨.ok [], .ok 0, .ok 0, .ok [], .ok ⟨0, 0⟩, .ok [],
    fun _ => .error "x"⟩

/-- Witness for C10: the empty-success provider panics; a provider whose
info head exists succeeds from element 0. -/
theorem getCPUMetrics_head_unguarded_witness :
    GetCPUMetrics pEmptyInfo = none
    ∧ GetCPUMetrics pW = some (⟨"cpu0", 0, 0, 0, []⟩, none) :=
  ⟨(getCPUMetrics_head_unguarded.1 pEmptyInfo [] rfl).mpr
      ⟨rfl, ⟨0, rfl⟩, ⟨0, rfl⟩, ⟨[], rfl⟩⟩,
    getCPUMetrics_head_unguarded.2 pW ⟨"cpu0", 0⟩ [] 0 0 [] rfl rfl rfl rfl⟩
